import Mathlib

/-!
Verification of the sweam Switch Pro Controller USB gadget emulator
(src/rust/src/main.rs) against its specification.

The Rust program is embedded shallowly:

* `u8` fields hold values in 0..=255 and are modelled as `Nat`; the code
  performs no arithmetic on them, it only stores and copies them.
* `buttons: u32` is modelled as `Nat`; bitwise operations are the natural
  `Nat` ones, and the `u32` bitwise negation in `release_button` is
  modelled explicitly as `xor` with `0xFFFFFFFF` (the claims needing the
  32-bit bound carry it as a hypothesis).
* The libusb device handle is modelled as a record of two oracle
  functions giving the outcome of `write_interrupt` / `read_interrupt`;
  the emulator code around them is translated verbatim.
* The configfs side effects of `UsbGadget` are modelled as a list of
  filesystem operations applied to an explicit filesystem state, with a
  failure-injection index replaying an `io::Error` at a chosen step.
-/

namespace Sweam

/-- Stick position, from `struct StickState { x: u8, y: u8 }`. -/
structure StickState where
  x : Nat
  y : Nat
deriving DecidableEq, Repr

/-- Controller state, from `struct ControllerState`: a `u32` button bit set
and the two sticks. -/
structure ControllerState where
  buttons : Nat
  left_stick : StickState
  right_stick : StickState
deriving DecidableEq, Repr

/-- The `Default` impl for `ControllerState`: no buttons, sticks centered. -/
def ControllerState.default : ControllerState :=
  { buttons := 0
    left_stick := { x := 128, y := 128 }
    right_stick := { x := 128, y := 128 } }

/-- The `Button` enum: each variant names a bit position, with the explicit
discriminants of the source (bits 14 and 15 unused). -/
inductive Button where
  | Y | X | B | A | SrR | SlR | R | ZR
  | MINUS | PLUS | RSTICK | LSTICK | HOME | CAPTURE
  | DOWN | UP | RIGHT | LEFT | SrL | SlL | L | ZL
deriving DecidableEq, Repr

/-- Discriminant of each `Button` variant (`button as u32`). -/
def Button.index : Button → Nat
  | .Y => 0
  | .X => 1
  | .B => 2
  | .A => 3
  | .SrR => 4
  | .SlR => 5
  | .R => 6
  | .ZR => 7
  | .MINUS => 8
  | .PLUS => 9
  | .RSTICK => 10
  | .LSTICK => 11
  | .HOME => 12
  | .CAPTURE => 13
  | .DOWN => 16
  | .UP => 17
  | .RIGHT => 18
  | .LEFT => 19
  | .SrL => 20
  | .SlL => 21
  | .L => 22
  | .ZL => 23

/-- `ControllerState::press_button`: `self.buttons |= 1 << (button as u32)`. -/
def ControllerState.press_button (s : ControllerState) (b : Button) : ControllerState :=
  { s with buttons := s.buttons ||| (1 <<< b.index) }

/-- `ControllerState::release_button`:
`self.buttons &= !(1 << (button as u16))`.  The literal `1` is a `u32`, so
the mask is the 32-bit complement of `1 << index`, modelled as xor with
`0xFFFFFFFF`. -/
def ControllerState.release_button (s : ControllerState) (b : Button) : ControllerState :=
  { s with buttons := s.buttons &&& (0xFFFFFFFF ^^^ (1 <<< b.index)) }

/-- `ControllerState::set_left_stick`. -/
def ControllerState.set_left_stick (s : ControllerState) (x y : Nat) : ControllerState :=
  { s with left_stick := { x := x, y := y } }

/-- `ControllerState::set_right_stick`. -/
def ControllerState.set_right_stick (s : ControllerState) (x y : Nat) : ControllerState :=
  { s with right_stick := { x := x, y := y } }

/-- The 7-byte report array built inside
`SwitchProEmulator::send_input_report`, byte for byte:
report id `0x00`, `buttons & 0xFF`, `(buttons >> 8) & 0xFF`, then the four
stick components. -/
def encode (s : ControllerState) : List Nat :=
  [ 0x00
  , s.buttons &&& 0xFF
  , (s.buttons >>> 8) &&& 0xFF
  , s.left_stick.x
  , s.left_stick.y
  , s.right_stick.x
  , s.right_stick.y ]

/-- Error kinds of the rusb transfer functions that matter here
(`rusb::Error`); `Timeout` is what `read_interrupt` / `write_interrupt`
return when no transfer completes within the deadline, every other variant
is collapsed into `Other`. -/
inductive UsbError where
  | Timeout
  | Other
deriving DecidableEq, Repr

/-- A libusb `DeviceHandle`, modelled as two oracles giving the outcome of
the interrupt transfers the emulator performs.  `write_interrupt` takes the
endpoint address, the bytes to send and the timeout in milliseconds and
yields the number of bytes written; `read_interrupt` takes the endpoint
address, the buffer length and the timeout and yields the number of bytes
read together with the filled buffer. -/
structure DeviceHandle where
  write_interrupt : Nat → List Nat → Nat → Except UsbError Nat
  read_interrupt : Nat → Nat → Nat → Except UsbError (Nat × List Nat)

/-- The emulator, from `struct SwitchProEmulator`: an optional device
handle and the two endpoint addresses.  The `usb_gadget` field only carries
the configfs state, which is modelled separately below. -/
structure SwitchProEmulator where
  handle : Option DeviceHandle
  endpoint_in : Nat
  endpoint_out : Nat

/-- `SwitchProEmulator::new`: no handle yet, `endpoint_in = 0x81`,
`endpoint_out = 0x01`. -/
def SwitchProEmulator.new : SwitchProEmulator :=
  { handle := none, endpoint_in := 0x81, endpoint_out := 0x01 }

/-- `SwitchProEmulator::send_input_report`: build the report, and if a
handle is held, `write_interrupt` it to `self.endpoint_out` with a 100 ms
timeout, propagating errors with `?`; with no handle the body is skipped
and `Ok(())` is returned. -/
def SwitchProEmulator.send_input_report (e : SwitchProEmulator) (s : ControllerState) :
    Except UsbError Unit :=
  let report := encode s
  match e.handle with
  | some h =>
    match h.write_interrupt e.endpoint_out report 100 with
    | .error err => .error err
    | .ok _ => .ok ()
  | none => .ok ()

/-- `SwitchProEmulator::receive_output_report`: allocate a 64-byte zero
buffer, and if a handle is held, `read_interrupt` from `self.endpoint_in`
with a 100 ms timeout, propagating errors with `?`, then truncate the
buffer to the size read; with no handle the untouched 64-byte zero buffer
is returned. -/
def SwitchProEmulator.receive_output_report (e : SwitchProEmulator) :
    Except UsbError (List Nat) :=
  let buf := List.replicate 64 (0 : Nat)
  match e.handle with
  | some h =>
    match h.read_interrupt e.endpoint_in 64 100 with
    | .error err => .error err
    | .ok (size, filled) => .ok (filled.take size)
  | none => .ok buf

/-- The HID report descriptor written into
`functions/hid.usb0/report_desc`, byte for byte from the source. -/
def report_desc : List Nat :=
  [ 0x05, 0x01
  , 0x09, 0x05
  , 0xA1, 0x01
  , 0x15, 0x00
  , 0x25, 0x01
  , 0x35, 0x00
  , 0x45, 0x01
  , 0x75, 0x01
  , 0x95, 0x10
  , 0x05, 0x09
  , 0x19, 0x01
  , 0x29, 0x10
  , 0x81, 0x02
  , 0x05, 0x01
  , 0x25, 0x07
  , 0x46, 0x3B, 0x01
  , 0x75, 0x04
  , 0x95, 0x01
  , 0x65, 0x14
  , 0x09, 0x39
  , 0x81, 0x42
  , 0x65, 0x00
  , 0x95, 0x01
  , 0x81, 0x01
  , 0x26, 0xFF, 0x00
  , 0x46, 0xFF, 0x00
  , 0x09, 0x30
  , 0x09, 0x31
  , 0x09, 0x32
  , 0x09, 0x35
  , 0x75, 0x08
  , 0x95, 0x04
  , 0x81, 0x02
  , 0xC0 ]

/-- Little-endian value of a list of bytes. -/
def leVal : List Nat → Nat
  | [] => 0
  | b :: rest => b + 256 * leVal rest

/-- Modelled from the spec: section 4.1 relates the total input-report bit
width declared by the descriptor to the report length; the walk over the
standard HID short-item grammar needed to compute that width is not itself
part of the repository.  A short item packs its data size in bits 0..1
(3 meaning 4 bytes), its type in bits 2..3 and its tag in bits 4..7; the
walk tracks the Report Size (global tag 7) and Report Count (global tag 9)
state and sums `size * count` at every Input main item (type 0, tag 8).
The first argument is fuel, always instantiated with the list length. -/
def hidInputBitsAux : Nat → List Nat → Nat → Nat → Nat
  | 0, _, _, _ => 0
  | _ + 1, [], _, _ => 0
  | fuel + 1, b :: rest, rs, rc =>
    let sz := b % 4
    let dataLen := if sz == 3 then 4 else sz
    let typ := b / 4 % 4
    let tag := b / 16
    let data := leVal (rest.take dataLen)
    let cur := if typ == 0 && tag == 8 then rs * rc else 0
    let rs' := if typ == 1 && tag == 7 then data else rs
    let rc' := if typ == 1 && tag == 9 then data else rc
    cur + hidInputBitsAux fuel (rest.drop dataLen) rs' rc'

/-- Total input-report bit width declared by a HID report descriptor. -/
def hidInputBits (l : List Nat) : Nat := hidInputBitsAux l.length l 0 0

/-- The decimal value of the string `"64"` the source writes into
`functions/hid.usb0/report_length`. -/
def report_length_declared : Nat := 64

/-- State of the configfs subtree rooted at
`/sys/kernel/config/usb_gadget/switch_pro`.  Directory existence is one
flag per directory the source creates; attribute files are an association
list from path (relative to the gadget directory) to written content;
`udc` is the content of the `UDC` attribute once written (configfs creates
the attribute files together with the gadget directory, so
`udc_path.exists()` holds exactly when the gadget directory does). -/
structure Fs where
  gadget_dir : Bool
  strings_dir : Bool
  function_dir : Bool
  config_dir : Bool
  hid_symlink : Bool
  attrs : List (String × String)
  udc : Option String
deriving DecidableEq, Repr

/-- The filesystem before any provisioning: nothing exists. -/
def Fs.empty : Fs :=
  { gadget_dir := false, strings_dir := false, function_dir := false
    config_dir := false, hid_symlink := false, attrs := [], udc := none }

/-- Overwrite-or-insert an attribute file content. -/
def setAttr (l : List (String × String)) (n v : String) : List (String × String) :=
  (n, v) :: l.filter (fun p => p.1 ≠ n)

/-- One step of `UsbGadget::setup_configfs` or of the teardown path. -/
inductive FsOp where
  | disableGadget
  | removeHidFunction
  | createGadgetDir
  | createStringsDir
  | createFunctionDir
  | createConfigDir
  | writeAttr (name val : String)
  | symlinkHid
  | writeUdc (v : String)
deriving DecidableEq, Repr

/-- Effect of one step on the filesystem.  `disableGadget` writes the empty
string into `UDC` only when the attribute exists (`if self.udc_path.exists()`),
`removeHidFunction` removes the symlink when present, the `create_dir_all`
steps are idempotent, and writes overwrite. -/
def FsOp.apply : FsOp → Fs → Fs
  | .disableGadget, fs => if fs.gadget_dir then { fs with udc := some "" } else fs
  | .removeHidFunction, fs => { fs with hid_symlink := false }
  | .createGadgetDir, fs => { fs with gadget_dir := true }
  | .createStringsDir, fs => { fs with strings_dir := true }
  | .createFunctionDir, fs => { fs with function_dir := true }
  | .createConfigDir, fs => { fs with config_dir := true }
  | .writeAttr n v, fs => { fs with attrs := setAttr fs.attrs n v }
  | .symlinkHid, fs => { fs with hid_symlink := true }
  | .writeUdc v, fs => { fs with udc := some v }

/-- The steps of `UsbGadget::setup_configfs` in source order: unbind and
unlink any previous state, create the gadget directory, write the device
descriptors (`{:#04x}` renders `0x057E` as `0x57e` and `0x2009` as
`0x2009`), the strings, the HID function attributes and descriptor, the
configuration, the symlink, and finally bind the UDC. -/
def setup_configfs_ops (udc : String) : List FsOp :=
  [ .disableGadget
  , .removeHidFunction
  , .createGadgetDir
  , .writeAttr "idVendor" "0x57e"
  , .writeAttr "idProduct" "0x2009"
  , .writeAttr "bcdDevice" "0x0100"
  , .writeAttr "bcdUSB" "0x0200"
  , .writeAttr "bDeviceClass" "0x00"
  , .writeAttr "bDeviceSubClass" "0x00"
  , .writeAttr "bDeviceProtocol" "0x00"
  , .writeAttr "bMaxPacketSize0" "64"
  , .createStringsDir
  , .writeAttr "strings/0x409/manufacturer" "Nintendo"
  , .writeAttr "strings/0x409/product" "Pro Controller"
  , .createFunctionDir
  , .writeAttr "functions/hid.usb0/protocol" "0"
  , .writeAttr "functions/hid.usb0/subclass" "0"
  , .writeAttr "functions/hid.usb0/report_length" "64"
  , .writeAttr "functions/hid.usb0/report_desc" "<report descriptor bytes>"
  , .createConfigDir
  , .writeAttr "configs/c.1/MaxPower" "500"
  , .symlinkHid
  , .writeUdc udc ]

/-- Run a list of filesystem steps with failure injection: `failAt = some k`
makes the k-th remaining step fail with an `io::Error` before taking
effect, stopping the run (the `?` operator); the boolean reports success. -/
def runOps : List FsOp → Option Nat → Fs → Fs × Bool
  | [], _, fs => (fs, true)
  | _ :: _, some 0, fs => (fs, false)
  | op :: rest, failAt, fs =>
    runOps rest (failAt.map (· - 1)) (op.apply fs)

/-- The `Drop` impl for `UsbGadget`: `disable_gadget` then
`remove_hid_function`, errors only logged. -/
def usbGadget_drop (fs : Fs) : Fs :=
  FsOp.removeHidFunction.apply (FsOp.disableGadget.apply fs)

/-- `UsbGadget::new`: run `setup_configfs`; when a step fails, the `?`
returns the error from `new`, the local `UsbGadget` value is dropped, and
the `Drop` cleanup runs on the filesystem left behind. -/
def usbGadget_new (udc : String) (failAt : Option Nat) (fs : Fs) : Fs × Bool :=
  let r := runOps (setup_configfs_ops udc) failAt fs
  if r.2 then r else (usbGadget_drop r.1, false)

/-- Rust saturating float-to-integer conversion `as u8` on a finite value:
round toward zero, saturating at 0 and 255.  The value of the `f32`
expression is abstracted as a rational. -/
def rust_f32_as_u8 (v : ℚ) : Nat :=
  if v ≤ 0 then 0 else min 255 ⌊v⌋₊

/-- Rust `u8::clamp(self, 0, 255)` as applied after the cast in
`set_left_stick_angle`. -/
def clampU8 (a : Nat) : Nat := min 255 (max 0 a)

/-- `ControllerState::set_left_stick_angle` with the two floating-point
expressions `128.0 + radians.cos() * 127.0 * intensity` (for x) and
`128.0 + radians.sin() * 127.0 * intensity` (for y) abstracted as
arbitrary rationals `xv`, `yv`: each is narrowed with `as u8`, then
clamped to `0..=255`, then stored with `set_left_stick`. -/
def ControllerState.set_left_stick_angle_abs (s : ControllerState) (xv yv : ℚ) :
    ControllerState :=
  let x := clampU8 (rust_f32_as_u8 xv)
  let y := clampU8 (rust_f32_as_u8 yv)
  s.set_left_stick x y

/-- A handle whose transfers always time out: no host-originated data
arrives within the 100 ms deadline, which libusb reports as
`Error::Timeout`. -/
def timeoutHandle : DeviceHandle :=
  { write_interrupt := fun _ _ _ => .error .Timeout
    read_interrupt := fun _ _ _ => .error .Timeout }

/-- Emulator holding the always-timing-out handle. -/
def emulatorTimeout : SwitchProEmulator :=
  { SwitchProEmulator.new with handle := some timeoutHandle }

/-- A probe handle that accepts interrupt writes only on the interrupt IN
endpoint `0x81` and fails on every other endpoint. -/
def inOnlyHandle : DeviceHandle :=
  { write_interrupt := fun ep _ _ => if ep = 0x81 then .ok 7 else .error .Other
    read_interrupt := fun _ _ _ => .error .Other }

/-- A probe handle recording what the emulator actually passes: writes
succeed only for endpoint `0x01` carrying the 7 encoded bytes of the
default state with a 100 ms timeout, reads succeed only for endpoint
`0x81` with a 100 ms timeout and report zero bytes received. -/
def outProbeHandle : DeviceHandle :=
  { write_interrupt := fun ep data t =>
      if ep = 0x01 ∧ data = encode ControllerState.default ∧ t = 100 then .ok 7
      else .error .Other
    read_interrupt := fun ep len t =>
      if ep = 0x81 ∧ len = 64 ∧ t = 100 then .ok (0, List.replicate 64 0)
      else .error .Other }

/-! ## Helper lemmas on the bit arithmetic of the encoder -/

/-- Setting a bit at position 8 or above does not change the low byte. -/
lemma and255_or_high (x e : Nat) (h : 8 ≤ e) :
    (x ||| 1 <<< e) &&& 255 = x &&& 255 := by
  have h255 : (255 : Nat) = 2 ^ 8 - 1 := by norm_num
  apply Nat.eq_of_testBit_eq
  intro i
  rw [Nat.one_shiftLeft, h255]
  simp only [Nat.testBit_and, Nat.testBit_or, Nat.testBit_two_pow,
    Nat.testBit_two_pow_sub_one]
  by_cases hi : i < 8
  · have : e ≠ i := by omega
    simp [this, hi]
  · simp [hi]

/-- Setting a bit at position 16 or above does not change the second byte. -/
lemma shiftRight8_and255_or_high (x e : Nat) (h : 16 ≤ e) :
    ((x ||| 1 <<< e) >>> 8) &&& 255 = (x >>> 8) &&& 255 := by
  have h255 : (255 : Nat) = 2 ^ 8 - 1 := by norm_num
  apply Nat.eq_of_testBit_eq
  intro i
  rw [Nat.one_shiftLeft, h255]
  simp only [Nat.testBit_and, Nat.testBit_shiftRight, Nat.testBit_or,
    Nat.testBit_two_pow, Nat.testBit_two_pow_sub_one]
  by_cases hi : i < 8
  · have : e ≠ 8 + i := by omega
    simp [this, hi]
  · simp [hi]

/-- Setting a clear bit and then clearing it through the 32-bit complement
mask restores the original 32-bit value. -/
lemma or_and_not_mask (x e : Nat) (hx : x < 2 ^ 32) (he : e < 32)
    (hbit : x.testBit e = false) :
    (x ||| 1 <<< e) &&& (0xFFFFFFFF ^^^ 1 <<< e) = x := by
  have h2 : (0xFFFFFFFF : Nat) = 2 ^ 32 - 1 := by norm_num
  apply Nat.eq_of_testBit_eq
  intro i
  rw [Nat.one_shiftLeft, h2]
  simp only [Nat.testBit_and, Nat.testBit_or, Nat.testBit_xor,
    Nat.testBit_two_pow, Nat.testBit_two_pow_sub_one]
  by_cases hie : e = i
  · subst hie
    simp [hbit, he]
  · by_cases hi : i < 32
    · simp [hie, hi]
    · have hxi : x.testBit i = false := by
        apply Nat.testBit_lt_two_pow
        calc x < 2 ^ 32 := hx
          _ ≤ 2 ^ i := Nat.pow_le_pow_right (by norm_num) (by omega)
      simp [hie, hi, hxi]

/-- Every button discriminant is below 32. -/
lemma Button.index_lt_32 (b : Button) : b.index < 32 := by
  cases b <;> decide

/-! ## Claim theorems -/

/-- C1: with only button A (bit 3) pressed and both sticks at (128,128),
the report built by send_input_report is exactly
[0x00, 0x08, 0x00, 128, 128, 128, 128]; in general the report is
[0x00, buttons bits 0..7, buttons bits 8..15, left x, left y, right x,
right y]. -/
theorem C1_report_bytes :
    encode (ControllerState.default.press_button Button.A) =
      [0x00, 0x08, 0x00, 128, 128, 128, 128] ∧
    ∀ s : ControllerState, encode s =
      [0, s.buttons % 256, s.buttons / 256 % 256,
       s.left_stick.x, s.left_stick.y, s.right_stick.x, s.right_stick.y] := by
  constructor
  · decide
  · intro s
    have e1 : s.buttons &&& 0xFF = s.buttons % 256 := by
      have h := Nat.and_pow_two_sub_one_eq_mod s.buttons 8
      norm_num at h
      exact h
    have e2 : (s.buttons >>> 8) &&& 0xFF = s.buttons / 256 % 256 := by
      have h := Nat.and_pow_two_sub_one_eq_mod (s.buttons >>> 8) 8
      norm_num at h
      rw [h, Nat.shiftRight_eq_div_pow]
    simp [encode, e1, e2]

/-- C2: the claim says the encoded report length equals the
`report_length` declared to the kernel and the descriptor bit width equals
that length in bytes.  In the code the encoder emits 7 bytes and the
descriptor declares 56 bits = 7 bytes — the two agree with each other —
while the `report_length` attribute written during provisioning declares
64: the declared length is the odd one out. -/
theorem C2_report_length_mismatch :
    (∀ s : ControllerState, (encode s).length * 8 = hidInputBits report_desc) ∧
    FsOp.writeAttr "functions/hid.usb0/report_length" "64" ∈
      setup_configfs_ops "fe800000.usb" ∧
    report_length_declared = 64 ∧
    ∀ s : ControllerState, (encode s).length ≠ report_length_declared := by
  refine ⟨fun s => ?_, by decide, rfl, fun s => ?_⟩
  · simp [encode]
    decide
  · simp [encode, report_length_declared]

/-- C3: pressing any button whose bit index is 16 or greater leaves the
encoded report unchanged, because the encoder reads only buttons bits
0..15. -/
theorem C3_high_buttons_invisible (s : ControllerState) (b : Button)
    (h : 16 ≤ b.index) :
    encode (s.press_button b) = encode s := by
  simp only [encode, ControllerState.press_button]
  rw [and255_or_high _ _ (by omega), shiftRight8_and255_or_high _ _ h]

/-- Witness for C3 at the default state and the DOWN button (bit 16). -/
theorem C3_high_buttons_invisible_witness :
    16 ≤ Button.DOWN.index ∧
    encode (ControllerState.default.press_button Button.DOWN) =
      encode ControllerState.default :=
  ⟨by decide, C3_high_buttons_invisible ControllerState.default Button.DOWN (by decide)⟩

/-- C4: the claim says invoking the transport before a device handle is
acquired fails fast with an error.  In the code a fresh emulator has
`handle == None`, and both operations skip the transfer and return `Ok`:
send_input_report returns `Ok(())` and receive_output_report returns the
untouched 64-byte zero buffer, a silent no-op success. -/
theorem C4_inactive_transport_silently_succeeds :
    SwitchProEmulator.new.send_input_report ControllerState.default =
      Except.ok () ∧
    SwitchProEmulator.new.receive_output_report =
      Except.ok (List.replicate 64 0) := by
  exact ⟨rfl, rfl⟩

/-- C5: the claim says a timeout with no data yields `Ok` with an empty
result.  In the code the `?` on `read_interrupt` propagates the libusb
timeout, so receive_output_report returns `Err(Timeout)`, not an empty
`Ok`. -/
theorem C5_timeout_propagates_as_error :
    emulatorTimeout.receive_output_report =
      Except.error UsbError.Timeout ∧
    emulatorTimeout.receive_output_report ≠ Except.ok [] := by
  refine ⟨rfl, fun h => ?_⟩
  rw [show emulatorTimeout.receive_output_report =
    Except.error UsbError.Timeout from rfl] at h
  exact Except.noConfusion h

/-- C6: the claim says a failed provisioning step leaves the filesystem as
it was before the attempt, the subtree fully absent.  Injecting a failure
at step 3 (the idVendor write, right after the gadget directory was
created) over an initially empty filesystem: the error-path cleanup (the
Drop impl) only unbinds the UDC and removes the symlink, so the gadget
directory survives and the result differs from the initial state. -/
theorem C6_failed_provision_leaves_partial_state :
    (usbGadget_new "fe800000.usb" (some 3) Fs.empty).2 = false ∧
    (usbGadget_new "fe800000.usb" (some 3) Fs.empty).1.gadget_dir = true ∧
    Fs.empty.gadget_dir = false ∧
    (usbGadget_new "fe800000.usb" (some 3) Fs.empty).1 ≠ Fs.empty := by
  refine ⟨rfl, rfl, rfl, by decide⟩

/-- C8: for every value of the floating-point expressions (abstracted as
rationals, covering intensity outside [0,1] and any angle), the stick
components end up in [0,255], and a negative intermediate value narrows to
0 rather than wrapping, because the Rust float-to-integer `as` cast
saturates. -/
theorem C8_angle_result_clamped (s : ControllerState) (xv yv : ℚ) :
    (s.set_left_stick_angle_abs xv yv).left_stick.x ≤ 255 ∧
    (s.set_left_stick_angle_abs xv yv).left_stick.y ≤ 255 ∧
    (xv < 0 → (s.set_left_stick_angle_abs xv yv).left_stick.x = 0) ∧
    (yv < 0 → (s.set_left_stick_angle_abs xv yv).left_stick.y = 0) := by
  refine ⟨?_, ?_, fun h => ?_, fun h => ?_⟩ <;>
    simp only [ControllerState.set_left_stick_angle_abs,
      ControllerState.set_left_stick, clampU8, rust_f32_as_u8]
  · exact Nat.min_le_left _ _
  · exact Nat.min_le_left _ _
  · rw [if_pos (le_of_lt h)]
    decide
  · rw [if_pos (le_of_lt h)]
    decide

/-- Witness for C8 at a large negative x expression and a huge y
expression. -/
theorem C8_angle_result_clamped_witness :
    ((-500 : ℚ) < 0) ∧
    (ControllerState.default.set_left_stick_angle_abs (-500) 100000).left_stick.y ≤ 255 ∧
    (ControllerState.default.set_left_stick_angle_abs (-500) 100000).left_stick.x = 0 :=
  ⟨by norm_num,
   (C8_angle_result_clamped ControllerState.default (-500) 100000).2.1,
   (C8_angle_result_clamped ControllerState.default (-500) 100000).2.2.1 (by norm_num)⟩

/-- C9 counterexample: when the button bit is already set, press then
release does not restore the prior buttons value: starting from buttons = 8
(A already pressed), press A then release A yields buttons = 0. -/
theorem C9_counterexample :
    (({ buttons := 8, left_stick := { x := 128, y := 128 },
        right_stick := { x := 128, y := 128 } } : ControllerState).press_button
          Button.A).release_button Button.A ≠
      { buttons := 8, left_stick := { x := 128, y := 128 },
        right_stick := { x := 128, y := 128 } } := by
  decide

/-- C9 amended: for every state whose buttons value fits in 32 bits and
every button whose bit is clear, press_button then release_button restores
the exact prior buttons value. -/
theorem C9_press_release_roundtrip (s : ControllerState) (b : Button)
    (h32 : s.buttons < 2 ^ 32) (hb : s.buttons.testBit b.index = false) :
    ((s.press_button b).release_button b).buttons = s.buttons := by
  simp only [ControllerState.press_button, ControllerState.release_button]
  exact or_and_not_mask _ _ h32 (Button.index_lt_32 b) hb

/-- Witness for C9 at the default state and button A. -/
theorem C9_press_release_roundtrip_witness :
    ControllerState.default.buttons < 2 ^ 32 ∧
    ControllerState.default.buttons.testBit Button.A.index = false ∧
    ((ControllerState.default.press_button Button.A).release_button
        Button.A).buttons = ControllerState.default.buttons :=
  ⟨by decide, by decide,
   C9_press_release_roundtrip ControllerState.default Button.A (by decide) (by decide)⟩

/-- C10: the claim says send_input_report writes to the interrupt IN
endpoint 0x81.  The emulator stores endpoint_in = 0x81 and
endpoint_out = 0x01, but send_input_report passes endpoint_out to
write_interrupt: a handle accepting writes only on 0x81 makes it fail,
while a handle accepting exactly endpoint 0x01 with the encoded report and
a 100 ms timeout makes it succeed (and receive_output_report reads from
0x81 with a 100 ms timeout). -/
theorem C10_send_targets_out_endpoint :
    SwitchProEmulator.new.endpoint_in = 0x81 ∧
    SwitchProEmulator.new.endpoint_out = 0x01 ∧
    ({ SwitchProEmulator.new with handle := some inOnlyHandle }
      : SwitchProEmulator).send_input_report ControllerState.default =
        Except.error UsbError.Other ∧
    ({ SwitchProEmulator.new with handle := some outProbeHandle }
      : SwitchProEmulator).send_input_report ControllerState.default =
        Except.ok () ∧
    ({ SwitchProEmulator.new with handle := some outProbeHandle }
      : SwitchProEmulator).receive_output_report = Except.ok [] := by
  refine ⟨rfl, rfl, rfl, rfl, rfl⟩

end Sweam

